import Mathlib

/-!
Verification of the incremental meeting-ingestion collector
(`templates/granola-collector.py`): a shallow embedding of its data model
and operations, followed by theorems about selection, watermark handling,
timestamp resolution, formatting, filename deduplication and the
commit/load round trip.

Modelling conventions:
* A Python `datetime` is a record of calendar fields plus an optional
  UTC-offset (`tz`, minutes); `tz = none` is a naive datetime.
* `datetime.fromtimestamp` is modelled with the local zone fixed to UTC;
  its possible `ValueError`/`OSError` on out-of-range values is modelled
  by returning `none` when the resulting year leaves 1..9999.
* `datetime.fromisoformat` is modelled on the grammar fragment the
  collector can actually feed it: `YYYY-MM-DD[{T, }HH:MM[:SS[.frac]]][±HH:MM]`,
  with field-range validation as in CPython.
* `datetime.strftime "%Y-%m-%dT%H:%M:%S"` is modelled with all fields
  zero-padded (`%Y` to four digits, as in the `datetime` documentation).
* Machine timestamps are integers (the representations named by the spec:
  integer seconds and integer milliseconds).
* Comparison `a < b` between datetimes raises `TypeError` when exactly one
  side is aware, as in Python; this is modelled by `pyLt` returning
  `Except`.
* Filesystem side effects of a run are modelled as a trace of events
  (document writes and the watermark commit); log lines carry no
  information the claims need and are abstracted (the watermark-load
  warning is kept as a boolean).
-/

/-- A Python `datetime`: calendar fields plus optional UTC offset in
minutes (`none` = naive). -/
structure PyDateTime where
  year : Nat
  month : Nat
  day : Nat
  hour : Nat
  minute : Nat
  second : Nat
  usec : Nat
  tz : Option Int
deriving DecidableEq, Repr

/-- A value found in a record's timestamp field: numeric or textual. -/
inductive FieldVal where
  | num (n : Int)
  | str (s : String)
deriving DecidableEq, Repr

/-- Python truthiness of a timestamp field value (`if not val: continue`):
`0` and the empty string are falsy. -/
def pyTruthy : FieldVal → Bool
  | .num n => n != 0
  | .str s => s != ""

/-- The ASCII whitespace stripped by Python's `str.strip()` / matched by `\s`. -/
def isPySpace (c : Char) : Bool :=
  c = ' ' || c = '\t' || c = '\n' || c = '\r' || c = '\x0b' || c = '\x0c'

/-- Python `str.strip()` on a character list. -/
def pyStrip (l : List Char) : List Char :=
  ((l.dropWhile isPySpace).reverse.dropWhile isPySpace).reverse

/-- Python `str.strip()` on a string. -/
def pyStripS (s : String) : String := String.mk (pyStrip s.data)

/-- Decimal digit character (used to model zero-padded `strftime` fields). -/
def dchar (k : Nat) : Char :=
  if k = 0 then '0' else if k = 1 then '1' else if k = 2 then '2'
  else if k = 3 then '3' else if k = 4 then '4' else if k = 5 then '5'
  else if k = 6 then '6' else if k = 7 then '7' else if k = 8 then '8' else '9'

/-- Is `c` an ASCII digit? -/
def isDig (c : Char) : Bool := 48 ≤ c.toNat && c.toNat ≤ 57

/-- Numeric value of a digit character. -/
def dval (c : Char) : Nat := c.toNat - 48

/-- Two-digit zero-padded decimal rendering. -/
def pad2 (n : Nat) : List Char := [dchar (n / 10), dchar (n % 10)]

/-- Four-digit zero-padded decimal rendering. -/
def pad4 (n : Nat) : List Char :=
  [dchar (n / 1000), dchar (n / 100 % 10), dchar (n / 10 % 10), dchar (n % 10)]

/-- Proleptic-Gregorian leap year. -/
def isLeap (y : Nat) : Bool := y % 4 = 0 && (!(y % 100 = 0) || y % 400 = 0)

/-- Days in a month, as validated by `datetime`. -/
def daysInMonth (y m : Nat) : Nat :=
  if m = 2 then (if isLeap y then 29 else 28)
  else if m = 4 ∨ m = 6 ∨ m = 9 ∨ m = 11 then 30 else 31

/-- The field ranges every real Python `datetime` satisfies. -/
abbrev PyDateTime.valid (t : PyDateTime) : Prop :=
  1 ≤ t.year ∧ t.year ≤ 9999 ∧ 1 ≤ t.month ∧ t.month ≤ 12 ∧
  1 ≤ t.day ∧ t.day ≤ daysInMonth t.year t.month ∧
  t.hour ≤ 23 ∧ t.minute ≤ 59 ∧ t.second ≤ 59 ∧ t.usec ≤ 999999

/-- Civil date from days since 1970-01-01 (proleptic Gregorian). -/
def civilFromDays (z0 : Int) : Int × Nat × Nat :=
  let z := z0 + 719468
  let era := z.fdiv 146097
  let doe := (z - era * 146097).toNat
  let yoe := (doe - doe / 1460 + doe / 36524 - doe / 146096) / 365
  let y := (yoe : Int) + era * 400
  let doy := doe - (365 * yoe + yoe / 4 - yoe / 100)
  let mp := (5 * doy + 2) / 153
  let d := doy - (153 * mp + 2) / 5 + 1
  let m := if mp < 10 then mp + 3 else mp - 9
  (if m ≤ 2 then y + 1 else y, m, d)

/-- Days since 1970-01-01 of a civil date (proleptic Gregorian). -/
def daysFromCivil (y : Int) (m d : Nat) : Int :=
  let y2 := if m ≤ 2 then y - 1 else y
  let era := y2.fdiv 400
  let yoe := (y2 - era * 400).toNat
  let mp := if 2 < m then m - 3 else m + 9
  let doy := (153 * mp + 2) / 5 + d - 1
  let doe := yoe * 365 + yoe / 4 - yoe / 100 + doy
  era * 146097 + (doe : Int) - 719468

/-- Microseconds since the epoch of a naive datetime's wall-clock fields. -/
def naiveKey (t : PyDateTime) : Int :=
  (daysFromCivil t.year t.month t.day * 86400
    + t.hour * 3600 + t.minute * 60 + t.second) * 1000000 + t.usec

/-- Comparison key: aware datetimes are shifted by their UTC offset,
mirroring how Python compares the underlying instants. -/
def cmpKey (t : PyDateTime) : Int :=
  naiveKey t - (t.tz.getD 0) * 60000000

/-- Errors that can escape the collector's ingestion loop. -/
inductive PyErr where
  | typeError
  | osError
deriving DecidableEq, Repr

/-- Python `<` on datetimes: raises `TypeError` when exactly one side is
offset-aware, else compares the instants. -/
def pyLt (a b : PyDateTime) : Except PyErr Bool :=
  if a.tz.isSome = b.tz.isSome then .ok (decide (cmpKey a < cmpKey b))
  else .error .typeError

/-- Model of `datetime.fromtimestamp` (local zone modelled as UTC) on a timestamp
given in integer microseconds; `none` models the `ValueError`/`OSError`
raised outside `datetime`'s year range. -/
def fromtimestampUsec (u : Int) : Option PyDateTime :=
  let sec := u.fdiv 1000000
  let us := (u - sec * 1000000).toNat
  let days := sec.fdiv 86400
  let sod := (sec - days * 86400).toNat
  let c := civilFromDays days
  if 1 ≤ c.1 ∧ c.1 ≤ 9999 then
    some ⟨c.1.toNat, c.2.1, c.2.2, sod / 3600, sod % 3600 / 60, sod % 60, us, none⟩
  else none

/-- Parse exactly two digit characters. -/
def parse2 : List Char → Option (Nat × List Char)
  | c1 :: c2 :: r =>
    if isDig c1 && isDig c2 then some (dval c1 * 10 + dval c2, r) else none
  | _ => none

/-- Parse exactly four digit characters. -/
def parse4 : List Char → Option (Nat × List Char)
  | c1 :: c2 :: c3 :: c4 :: r =>
    if isDig c1 && isDig c2 && isDig c3 && isDig c4 then
      some (dval c1 * 1000 + dval c2 * 100 + dval c3 * 10 + dval c4, r)
    else none
  | _ => none

/-- Consume one expected character. -/
def expectChar (c : Char) : List Char → Option (List Char)
  | x :: r => if x = c then some r else none
  | _ => none

/-- Parse a fractional-second component after the dot: one or more digits,
truncated to microsecond precision as in CPython. -/
def parseFracDigits (l : List Char) : Option (Nat × List Char) :=
  let ds := l.takeWhile isDig
  if ds = [] then none
  else
    some (((ds.take 6).foldl (fun a c => a * 10 + dval c) 0)
            * 10 ^ (6 - (ds.take 6).length), l.drop ds.length)

/-- Parse a `±HH:MM` UTC-offset suffix, returning the offset in minutes. -/
def parseOffset : List Char → Option (Int × List Char)
  | '+' :: r =>
    match parse2 r with
    | some (h, r1) =>
      match expectChar ':' r1 with
      | some r2 =>
        match parse2 r2 with
        | some (mi, r3) => if h ≤ 23 ∧ mi ≤ 59 then some ((h * 60 + mi : Nat), r3) else none
        | none => none
      | none => none
    | none => none
  | '-' :: r =>
    match parse2 r with
    | some (h, r1) =>
      match expectChar ':' r1 with
      | some r2 =>
        match parse2 r2 with
        | some (mi, r3) => if h ≤ 23 ∧ mi ≤ 59 then some (-((h * 60 + mi : Nat) : Int), r3) else none
        | none => none
      | none => none
    | none => none
  | _ => none

/-- Parse the `YYYY-MM-DD` prefix with `datetime`'s range validation. -/
def parseDate (l : List Char) : Option (Nat × Nat × Nat × List Char) :=
  match parse4 l with
  | some (y, r1) =>
    match expectChar '-' r1 with
    | some r2 =>
      match parse2 r2 with
      | some (mo, r3) =>
        match expectChar '-' r3 with
        | some r4 =>
          match parse2 r4 with
          | some (d, r5) =>
            if 1 ≤ y ∧ 1 ≤ mo ∧ mo ≤ 12 ∧ 1 ≤ d ∧ d ≤ daysInMonth y mo then
              some (y, mo, d, r5)
            else none
          | none => none
        | none => none
      | none => none
    | none => none
  | none => none

/-- Parse the optional `:SS[.frac]` tail of a time; absent parts default
to zero and the unconsumed remainder is returned. -/
def parseSecFrac (l : List Char) : Nat × Nat × List Char :=
  match l with
  | ':' :: r =>
    match parse2 r with
    | some (s, r2) =>
      match r2 with
      | '.' :: r3 =>
        (match parseFracDigits r3 with
         | some (us, r4) => (s, us, r4)
         | none => (s, 0, r2))
      | ',' :: r3 =>
        (match parseFracDigits r3 with
         | some (us, r4) => (s, us, r4)
         | none => (s, 0, r2))
      | _ => (s, 0, r2)
    | none => (0, 0, l)
  | _ => (0, 0, l)

/-- Model of `datetime.fromisoformat` on the grammar fragment the collector uses. -/
def fromisoChars (l : List Char) : Option PyDateTime :=
  match parseDate l with
  | some (y, mo, d, r) =>
    match r with
    | [] => some ⟨y, mo, d, 0, 0, 0, 0, none⟩
    | sep :: r1 =>
      if sep = 'T' ∨ sep = ' ' then
        match parse2 r1 with
        | some (h, r2) =>
          match expectChar ':' r2 with
          | some r3 =>
            match parse2 r3 with
            | some (mi, r4) =>
              let sf := parseSecFrac r4
              if h ≤ 23 ∧ mi ≤ 59 ∧ sf.1 ≤ 59 then
                match sf.2.2 with
                | [] => some ⟨y, mo, d, h, mi, sf.1, sf.2.1, none⟩
                | _ =>
                  match parseOffset sf.2.2 with
                  | some (off, []) => some ⟨y, mo, d, h, mi, sf.1, sf.2.1, some off⟩
                  | _ => none
              else none
            | none => none
          | none => none
        | none => none
      else none
  | none => none

/-- Model of `datetime.fromisoformat` on a string. -/
def fromisoformat (s : String) : Option PyDateTime := fromisoChars s.data

/-- Rendering of `dt.strftime "%Y-%m-%dT%H:%M:%S"` as characters. -/
def renderChars (t : PyDateTime) : List Char :=
  pad4 t.year ++ '-' :: (pad2 t.month ++ '-' :: (pad2 t.day ++ 'T' ::
    (pad2 t.hour ++ ':' :: (pad2 t.minute ++ ':' :: pad2 t.second))))

/-- Rendering `dt.strftime "%Y-%m-%dT%H:%M:%S"` — the watermark's committed form. -/
def strftimeSecs (t : PyDateTime) : String := String.mk (renderChars t)

/-- Rendering `dt.strftime "%Y-%m-%d %H:%M"` — the formatter's date line. -/
def renderDateHM (d : PyDateTime) : String :=
  String.mk (pad4 d.year ++ '-' :: (pad2 d.month ++ '-' :: (pad2 d.day ++ ' ' ::
    (pad2 d.hour ++ ':' :: pad2 d.minute))))

/-- Rendering `dt.strftime "%Y-%m-%d"` — the filename's date segment. -/
def renderDateOnly (d : PyDateTime) : String :=
  String.mk (pad4 d.year ++ '-' :: (pad2 d.month ++ '-' :: pad2 d.day))

/-- Every `"Z"` replaced by `"+00:00"`, as `str.replace` does. -/
def replaceZ : List Char → List Char
  | [] => []
  | c :: r => if c = 'Z' then '+' :: '0' :: '0' :: ':' :: '0' :: '0' :: replaceZ r
              else c :: replaceZ r

/-- Model of `datetime.now() - timedelta(days=30)`: the first-run lookback cutoff. -/
def subDays30 (t : PyDateTime) : PyDateTime :=
  let c := civilFromDays (daysFromCivil t.year t.month t.day - 30)
  ⟨c.1.toNat, c.2.1, c.2.2, t.hour, t.minute, t.second, t.usec, t.tz⟩

/-- The function `get_cutoff`: read the watermark file (modelled as `Option String`);
parse failures log a warning (second component) and fall back to the
30-day first-run default, exactly as a missing file does. -/
def get_cutoff (stateFile : Option String) (now : PyDateTime) : PyDateTime × Bool :=
  match stateFile with
  | some raw =>
    match fromisoformat (pyStripS raw) with
    | some dt => (dt, false)
    | none => (subDays30 now, true)
  | none => (subDays30 now, false)

/-- A meeting record as seen through the external cache's accessors
(`get_meeting_id`, `get_meeting_title`, `get_meeting_date`,
`get_participants`, `get_notes`, `get_summary`, `get_transcript`,
`has_content`) plus the raw timestamp fields `get_updated_at` reads. -/
structure Meeting where
  id : String
  title : String
  date : Option PyDateTime
  participants : List String
  notes : String
  summary : String
  transcript : Option String
  hasContent : Bool
  updated_at : Option FieldVal
  created_at : Option FieldVal
  createdAt : Option FieldVal
deriving DecidableEq, Repr

/-- The body of `get_updated_at`'s `try` block for one field value:
numeric values above `1e12` are divided by 1000 (milliseconds to seconds)
before `fromtimestamp`; strings have every `"Z"` replaced by `"+00:00"`
and, when a dot is present, everything from the first `"+"` and the first
`"."` onwards stripped, before `fromisoformat`. `none` models a caught
`ValueError`/`OSError`. -/
def parseTsVal : FieldVal → Option PyDateTime
  | .num n =>
    if 1000000000000 < n then fromtimestampUsec (n * 1000)
    else fromtimestampUsec (n * 1000000)
  | .str s =>
    if (replaceZ s.data).any (fun c => c == '.') then
      fromisoChars (((replaceZ s.data).takeWhile (fun c => c != '+')).takeWhile
        (fun c => c != '.'))
    else fromisoChars (replaceZ s.data)

/-- One iteration of `get_updated_at`'s field loop: a missing or falsy
value is skipped, a parse failure falls through. -/
def tryField : Option FieldVal → Option PyDateTime
  | none => none
  | some v => if pyTruthy v then parseTsVal v else none

/-- The function `get_updated_at`: try `updated_at`, `created_at`, `createdAt` in
order; `none` when no candidate resolves. -/
def get_updated_at (m : Meeting) : Option PyDateTime :=
  match tryField m.updated_at with
  | some d => some d
  | none =>
    match tryField m.created_at with
    | some d => some d
    | none => tryField m.createdAt

/-- The transcript cap (characters). -/
def TRANSCRIPT_CAP : Nat := 5000

/-- The formatter's date line value: `%Y-%m-%d %H:%M` or `"Unknown"`. -/
def dateStrOf : Option PyDateTime → String
  | some d => renderDateHM d
  | none => "Unknown"

/-- The formatter's participants line value: comma-joined or `"Unknown"`. -/
def participantsStr (ps : List String) : String :=
  if ps = [] then "Unknown" else String.intercalate ", " ps

/-- The notes section body with its placeholder. -/
def notesLine (notes : String) : String :=
  if pyStripS notes = "" then "No notes available" else notes

/-- The summary section body with its placeholder. -/
def summaryLine (summary : String) : String :=
  if pyStripS summary = "" then "No summary available" else summary

/-- The transcript section body: placeholder when absent or blank,
truncated at `TRANSCRIPT_CAP` characters with a marker when too long. -/
def transcriptLine : Option String → String
  | none => "No transcript available"
  | some t =>
    if pyStripS t = "" then "No transcript available"
    else if TRANSCRIPT_CAP < t.length then
      t.take TRANSCRIPT_CAP ++ "\n\n[... transcript truncated]"
    else t

/-- The lines `format_inbox_file` joins. -/
def format_lines (m : Meeting) : List String :=
  ["# Meeting: " ++ m.title,
   "",
   "**Date**: " ++ dateStrOf m.date,
   "**Participants**: " ++ participantsStr m.participants,
   "**Source**: granola",
   "**Meeting ID**: " ++ m.id,
   "",
   "## Notes",
   notesLine m.notes,
   "",
   "## Summary",
   summaryLine m.summary,
   "",
   "## Transcript Highlights",
   transcriptLine m.transcript]

/-- The function `format_inbox_file`: the structured markdown document for a record. -/
def format_inbox_file (m : Meeting) : String :=
  String.intercalate "\n" (format_lines m) ++ "\n"

/-- Model of `re.sub(pat+, rep, s)` for a single-character class: replaces each
maximal run of characters satisfying `p` by `rep`. -/
def subRuns (p : Char → Bool) (rep : Char) : Bool → List Char → List Char
  | _, [] => []
  | inRun, c :: r =>
    if p c then
      if inRun then subRuns p rep true r else rep :: subRuns p rep true r
    else c :: subRuns p rep false r

/-- The characters `slugify` removes (illegal in file names). -/
def illegalChars : List Char := ['<', '>', ':', '"', '/', '\\', '|', '?', '*']

/-- The function `slugify`: drop illegal characters, collapse whitespace of the
stripped title to single hyphens, lowercase, collapse hyphen runs, trim
hyphens, cap at 80 characters, falling back to `"untitled"`. -/
def slugify (title : String) : String :=
  let s1 := title.data.filter (fun c => !illegalChars.contains c)
  let s2 := subRuns isPySpace '-' false (pyStrip s1)
  let s3 := s2.map Char.toLower
  let s4 := subRuns (fun c => c == '-') '-' false s3
  let s5 := ((s4.dropWhile (fun c => c == '-')).reverse.dropWhile
              (fun c => c == '-')).reverse
  if s5 = [] then "untitled" else String.mk (s5.take 80)

/-- The function `inbox_filename`: `granola-{date}-{slug}.md`, `"undated"` when the
meeting date is unresolvable. -/
def inbox_filename (m : Meeting) : String :=
  "granola-" ++ (match m.date with
                 | some d => renderDateOnly d
                 | none => "undated") ++ "-" ++ slugify m.title ++ ".md"

/-- Model of `fname.rsplit(".", 1)`: split at the last dot (our filenames always
contain one; the dotless case returns an empty extension). -/
def rsplit1Dot (l : List Char) : List Char × List Char :=
  if l.contains '.' then
    let revAfter := l.reverse.takeWhile (fun c => c != '.')
    ((l.reverse.drop (revAfter.length + 1)).reverse, revAfter.reverse)
  else (l, [])

/-- The disambiguated filename: first 8 characters of the record id
appended before the extension. -/
def suffixedName (m : Meeting) : String :=
  let p := rsplit1Dot (inbox_filename m).data
  String.mk (p.1 ++ '-' :: (m.id.data.take 8) ++ '.' :: p.2)

/-- The per-record name choice of `_run`'s loop: the generated name if
unused this run, else the suffixed variant. -/
def dedupName (seen : List String) (m : Meeting) : String :=
  if inbox_filename m ∈ seen then suffixedName m else inbox_filename m

/-- Observable side effects of a run. -/
inductive Event where
  | write (fname content : String)
  | commit (stamp : String)
deriving DecidableEq, Repr

/-- Is this event the watermark commit? -/
def Event.isCommit : Event → Bool
  | .commit _ => true
  | _ => false

/-- File names of the write events, in order. -/
def writeNames (l : List Event) : List String :=
  l.filterMap fun e => match e with | .write f _ => some f | _ => none

/-- Holds (`true`) iff no event in the list is a watermark commit. -/
def noCommits (l : List Event) : Bool := l.all fun e => !e.isCommit

/-- Outcome of `load_cache()`: the cache file may be absent (a soft skip)
or unreadable (a hard failure); on success `extract_meetings` yields the
record list. -/
inductive LoadErr where
  | fileNotFound
  | other
deriving DecidableEq, Repr

/-- Exit code and event trace of a completed run. -/
structure RunResult where
  exit : Nat
  events : List Event
deriving DecidableEq, Repr

/-- The per-meeting loop of `_run` (lines 179-197): skip records without
content, with an unresolvable update instant, or strictly before the
cutoff; otherwise deduplicate the name, format and write. `wErr` tells
whether the write numbered `written` raises `OSError`; the comparison
`updated < cutoff` can itself raise `TypeError`. Neither exception is
caught, so it aborts the whole loop. -/
def ingest (cutoff : PyDateTime) (wErr : Nat → Bool) :
    List Meeting → List String → Nat → Except PyErr (Nat × List Event)
  | [], _, written => .ok (written, [])
  | m :: rest, seen, written =>
    if m.hasContent then
      match get_updated_at m with
      | none => ingest cutoff wErr rest seen written
      | some upd =>
        match pyLt upd cutoff with
        | .error e => .error e
        | .ok true => ingest cutoff wErr rest seen written
        | .ok false =>
          let fname := dedupName seen m
          if wErr written then .error .osError
          else
            match ingest cutoff wErr rest (fname :: seen) (written + 1) with
            | .error e => .error e
            | .ok (w, evs) => .ok (w, .write fname (format_inbox_file m) :: evs)
    else ingest cutoff wErr rest seen written

/-- The function `_run`: load the cache (absent cache is a logged soft skip with exit
0, any other load error a logged failure with exit 1), resolve the
cutoff, ingest every meeting, then write the watermark with the current
time `now2` (`now1` is the clock reading `get_cutoff` uses). An uncaught
exception from the loop escapes as `.error`. -/
def _run (loadResult : Except LoadErr (List Meeting)) (stateFile : Option String)
    (now1 now2 : PyDateTime) (wErr : Nat → Bool) : Except PyErr RunResult :=
  match loadResult with
  | .error .fileNotFound => .ok ⟨0, []⟩
  | .error .other => .ok ⟨1, []⟩
  | .ok meetings =>
    match ingest (get_cutoff stateFile now1).1 wErr meetings [] 0 with
    | .error e => .error e
    | .ok (_, evs) => .ok ⟨0, evs ++ [.commit (strftimeSecs now2)]⟩

/-- The event trace of a run, empty when the run died on an exception. -/
def runEvents : Except PyErr RunResult → List Event
  | .ok r => r.events
  | .error _ => []

/-- The exception a run died on, if any. -/
def runErr : Except PyErr RunResult → Option PyErr
  | .ok _ => none
  | .error e => some e

/-- Sample clock reading used by the concrete witnesses. -/
def sampleNow : PyDateTime := ⟨2024, 6, 15, 10, 0, 0, 0, none⟩

/-- A later clock reading of the same run (ten seconds elapsed). -/
def sampleNow10 : PyDateTime := ⟨2024, 6, 15, 10, 0, 10, 0, none⟩

/-- A meeting whose update time is an ISO string with a trailing `Z` and
no fractional seconds. -/
def mZ1 : Meeting :=
  ⟨"z1", "retro", none, [], "", "", none, true,
   some (.str "2024-06-01T12:00:00Z"), none, none⟩

/-- A meeting like `mZ1`, used to exhibit the aware parse result itself. -/
def mZ5 : Meeting :=
  ⟨"z5", "standup", none, [], "", "", none, true,
   some (.str "2024-03-01T09:30:00Z"), none, none⟩

/-- A meeting where `updated_at` resolves, so the created fields are ignored. -/
def mPref : Meeting :=
  ⟨"p1", "sync", none, [], "", "", none, true,
   some (.num 1700000000), some (.num 999), none⟩

/-- A meeting whose `updated_at` fails to parse, falling through to
`created_at`. -/
def mFall : Meeting :=
  ⟨"f1", "sync", none, [], "", "", none, true,
   some (.str "bogus"), some (.num 1700000000), none⟩

/-- A meeting with no timestamp field at all. -/
def mNone : Meeting := ⟨"n1", "sync", none, [], "", "", none, true, none, none, none⟩

/-- A meeting whose `updated_at` is the number 0. -/
def m9a : Meeting :=
  ⟨"a9", "kickoff", none, [], "", "", none, true,
   some (.num 0), some (.num 1700000000), none⟩

/-- A meeting whose `created_at` is the empty string. -/
def m9b : Meeting :=
  ⟨"b9", "kickoff", none, [], "", "", none, true,
   none, some (.str ""), some (.num 1700000000)⟩

/-- A meeting with every optional field absent or blank. -/
def m4 : Meeting := ⟨"id4", "weekly", none, [], "  ", "", some "\n", true, none, none, none⟩

/-- A meeting with no transcript at all. -/
def m4b : Meeting := ⟨"id4b", "weekly", none, [], "", "", none, true, none, none, none⟩

/-- A transcript of exactly the cap length. -/
def t5000 : String := String.mk (List.replicate TRANSCRIPT_CAP 'a')

/-- A transcript one character over the cap. -/
def t5001 : String := String.mk (List.replicate (TRANSCRIPT_CAP + 1) 'a')

/-- A meeting carrying the cap-length transcript. -/
def m8a : Meeting := ⟨"id8a", "long", none, [], "", "", some t5000, true, none, none, none⟩

/-- A meeting carrying the cap-plus-one transcript. -/
def m8b : Meeting := ⟨"id8b", "long", none, [], "", "", some t5001, true, none, none, none⟩

/-- The result of an empty-cache run committing at `sampleNow10`. -/
def c2res : RunResult := ⟨0, [.commit (strftimeSecs sampleNow10)]⟩

/-- A selected meeting (content, integer-seconds timestamp past the cutoff). -/
def mA : Meeting :=
  ⟨"aaaa1111x", "standup", none, [], "", "", none, true,
   some (.num 1700000000), none, none⟩

/-- A second selected meeting. -/
def mB : Meeting :=
  ⟨"bbbb2222y", "standup", none, [], "", "", none, true,
   some (.num 1700000000), none, none⟩

/-- The separation condition under which the run's name deduplication is
collision-free: distinct records' suffixed variants differ, and no
record's generated name coincides with another record's suffixed
variant. -/
abbrev namesApart (a b : Meeting) : Prop :=
  suffixedName a ≠ suffixedName b ∧ inbox_filename a ≠ suffixedName b ∧
  suffixedName a ≠ inbox_filename b

/-- Three records sharing date, slug and identifier prefix. -/
def mD1 : Meeting :=
  ⟨"aaaa1111x", "planning", none, [], "", "", none, true,
   some (.num 1700000000), none, none⟩

/-- Second record with the same generated name and identifier prefix. -/
def mD2 : Meeting :=
  ⟨"aaaa1111y", "planning", none, [], "", "", none, true,
   some (.num 1700000000), none, none⟩

/-- Third record with the same generated name and identifier prefix. -/
def mD3 : Meeting :=
  ⟨"aaaa1111z", "planning", none, [], "", "", none, true,
   some (.num 1700000000), none, none⟩

/-- Two selected records with the same generated name but different
identifier prefixes. -/
def w61 : Meeting :=
  ⟨"aaaa1111x", "review", none, [], "", "", none, true,
   some (.num 1700000000), none, none⟩

/-- The second review record. -/
def w62 : Meeting :=
  ⟨"bbbb2222y", "review", none, [], "", "", none, true,
   some (.num 1700000000), none, none⟩

/-- The result of the two-record run used by the C6 witness. -/
def c6res : RunResult :=
  match _run (.ok [w61, w62]) (some "2020-01-01T00:00:00") sampleNow sampleNow
      (fun _ => false) with
  | .ok r => r
  | .error _ => ⟨0, []⟩

theorem isDig_dchar (k : Nat) : isDig (dchar k) = true := by
  unfold dchar
  repeat' split
  all_goals decide

theorem notSpace_dchar (k : Nat) : isPySpace (dchar k) = false := by
  unfold dchar
  repeat' split
  all_goals decide

theorem dval_dchar (k : Nat) (h : k ≤ 9) : dval (dchar k) = k := by
  interval_cases k <;> decide

theorem expectChar_cons (c : Char) (r : List Char) : expectChar c (c :: r) = some r := by
  simp [expectChar]

theorem parse2_pad2 (n : Nat) (r : List Char) (h : n ≤ 99) :
    parse2 (pad2 n ++ r) = some (n, r) := by
  show parse2 (dchar (n / 10) :: dchar (n % 10) :: r) = some (n, r)
  simp only [parse2]
  rw [isDig_dchar, isDig_dchar]
  simp only [Bool.and_self, if_true]
  rw [dval_dchar _ (by omega), dval_dchar _ (by omega)]
  have hn : n / 10 * 10 + n % 10 = n := by omega
  rw [hn]

theorem parse2_pad2_nil (n : Nat) (h : n ≤ 99) : parse2 (pad2 n) = some (n, []) := by
  have := parse2_pad2 n [] h
  rwa [List.append_nil] at this

theorem parse4_pad4 (n : Nat) (r : List Char) (h : n ≤ 9999) :
    parse4 (pad4 n ++ r) = some (n, r) := by
  show parse4 (dchar (n / 1000) :: dchar (n / 100 % 10) :: dchar (n / 10 % 10)
        :: dchar (n % 10) :: r) = some (n, r)
  simp only [parse4]
  rw [isDig_dchar, isDig_dchar, isDig_dchar, isDig_dchar]
  simp only [Bool.and_self, if_true]
  rw [dval_dchar _ (by omega), dval_dchar _ (by omega), dval_dchar _ (by omega),
    dval_dchar _ (by omega)]
  have hn : n / 1000 * 1000 + n / 100 % 10 * 100 + n / 10 % 10 * 10 + n % 10 = n := by
    omega
  rw [hn]

theorem daysInMonth_le (y m : Nat) : daysInMonth y m ≤ 31 := by
  unfold daysInMonth
  repeat' split
  all_goals omega

theorem parseDate_render (y mo d : Nat) (r : List Char) (hy1 : 1 ≤ y) (hy : y ≤ 9999)
    (hm1 : 1 ≤ mo) (hm : mo ≤ 12) (hd1 : 1 ≤ d) (hd : d ≤ daysInMonth y mo) :
    parseDate (pad4 y ++ '-' :: (pad2 mo ++ '-' :: (pad2 d ++ r))) = some (y, mo, d, r) := by
  have e1 := parse4_pad4 y ('-' :: (pad2 mo ++ '-' :: (pad2 d ++ r))) hy
  have e2 := parse2_pad2 mo ('-' :: (pad2 d ++ r)) (by omega)
  have e3 := parse2_pad2 d r (by have := daysInMonth_le y mo; omega)
  simp [parseDate, e1, e2, e3, expectChar_cons, hy1, hm1, hm, hd1, hd]

theorem fromiso_render (t : PyDateTime) (hv : t.valid) :
    fromisoChars (renderChars t) =
      some ⟨t.year, t.month, t.day, t.hour, t.minute, t.second, 0, none⟩ := by
  obtain ⟨h1, h2, h3, h4, h5, h6, h7, h8, h9, h10⟩ := hv
  have e1 := parseDate_render t.year t.month t.day
    ('T' :: (pad2 t.hour ++ ':' :: (pad2 t.minute ++ ':' :: pad2 t.second)))
    h1 h2 h3 h4 h5 h6
  have e2 := parse2_pad2 t.hour (':' :: (pad2 t.minute ++ ':' :: pad2 t.second)) (by omega)
  have e3 := parse2_pad2 t.minute (':' :: pad2 t.second) (by omega)
  have e4 := parse2_pad2_nil t.second (by omega)
  simp [fromisoChars, renderChars, parseSecFrac, e1, e2, e3, e4, expectChar_cons,
    h7, h8, h9]

theorem dropWhile_eq_self_of_no_space (l : List Char)
    (h : ∀ c ∈ l, isPySpace c = false) : l.dropWhile isPySpace = l := by
  cases l with
  | nil => rfl
  | cons c r => simp [List.dropWhile, h c (by simp)]

theorem pyStrip_eq_self (l : List Char) (h : ∀ c ∈ l, isPySpace c = false) :
    pyStrip l = l := by
  unfold pyStrip
  rw [dropWhile_eq_self_of_no_space l h, dropWhile_eq_self_of_no_space l.reverse
    (by intro c hc; exact h c (List.mem_reverse.mp hc)), List.reverse_reverse]

theorem renderChars_no_space (t : PyDateTime) :
    ∀ c ∈ renderChars t, isPySpace c = false := by
  intro c hc
  simp only [renderChars, pad4, pad2, List.mem_append, List.mem_cons,
    List.not_mem_nil, or_false] at hc
  repeat' rcases hc with hc | hc
  all_goals first | apply notSpace_dchar | decide

theorem strip_render (t : PyDateTime) : pyStripS (strftimeSecs t) = strftimeSecs t := by
  unfold pyStripS strftimeSecs
  rw [show (String.mk (renderChars t)).data = renderChars t from rfl,
    pyStrip_eq_self _ (renderChars_no_space t)]

/-- C10: for every (valid) instant `t`, committing the watermark
(writing `t.strftime "%Y-%m-%dT%H:%M:%S"`) and then loading it returns
`t` truncated to whole seconds; the committed textual form always parses,
so the malformed-content fallback is never taken (no warning is logged)
and loading never fails. -/
theorem c10_commit_load_roundtrip (t now : PyDateTime) (hv : t.valid) :
    get_cutoff (some (strftimeSecs t)) now =
      (⟨t.year, t.month, t.day, t.hour, t.minute, t.second, 0, none⟩, false) := by
  have hred : get_cutoff (some (strftimeSecs t)) now =
      match fromisoformat (pyStripS (strftimeSecs t)) with
      | some dt => (dt, false)
      | none => (subDays30 now, true) := rfl
  rw [hred, strip_render]
  rw [show fromisoformat (strftimeSecs t) = fromisoChars (renderChars t) from rfl,
    fromiso_render t hv]

/-- Witness for C10 at a concrete commit instant. -/
theorem c10_roundtrip_witness :
    get_cutoff (some (strftimeSecs ⟨2024, 6, 15, 10, 0, 10, 500000, none⟩)) sampleNow =
      (⟨2024, 6, 15, 10, 0, 10, 0, none⟩, false) :=
  c10_commit_load_roundtrip ⟨2024, 6, 15, 10, 0, 10, 500000, none⟩ sampleNow (by decide)

/-- C7: loading the watermark returns now minus 30 days when the
persisted file is missing; when the file exists but its (stripped)
content does not parse as an instant, a warning is logged and the same
30-day default is returned; loading is total, so it never fails the run. -/
theorem c7_cutoff_defaults (stateFile : Option String) (now : PyDateTime) :
    (stateFile = none → get_cutoff stateFile now = (subDays30 now, false)) ∧
    (∀ s, stateFile = some s → fromisoformat (pyStripS s) = none →
      get_cutoff stateFile now = (subDays30 now, true)) := by
  constructor
  · intro h
    subst h
    rfl
  · intro s hs hp
    subst hs
    have hred : get_cutoff (some s) now =
        match fromisoformat (pyStripS s) with
        | some dt => (dt, false)
        | none => (subDays30 now, true) := rfl
    rw [hred, hp]

/-- Witness for C7: a first run (no watermark file) and a corrupted
watermark file both fall back to the 30-day default. -/
theorem c7_cutoff_witness :
    get_cutoff none sampleNow = (subDays30 sampleNow, false) ∧
    get_cutoff (some "garbage") sampleNow = (subDays30 sampleNow, true) :=
  ⟨(c7_cutoff_defaults none sampleNow).1 rfl,
   (c7_cutoff_defaults (some "garbage") sampleNow).2 "garbage" rfl (by decide)⟩

/-- C1 (failing input): a record carrying `updated_at =
"2024-06-01T12:00:00Z"` — one of the claim's four timestamp
representations — makes the resolver return an offset-aware datetime;
the comparison `updated < cutoff` against the naive cutoff then raises
an uncaught `TypeError`, so the run crashes instead of selecting the
record: selection does fail the run. -/
theorem c1_iso_z_timestamp_crashes_run :
    _run (.ok [mZ1]) none sampleNow sampleNow (fun _ => false) = .error .typeError := by
  rfl

/-- C5 (counterexample): a trailing-`Z` value without fractional seconds
is normalized to `+00:00` and parsed as an offset-AWARE timestamp
(`tz = some 0`), not as a naive one as the claim states. -/
theorem c5_z_suffix_parses_aware_not_naive :
    get_updated_at mZ5 = some ⟨2024, 3, 1, 9, 30, 0, 0, some 0⟩ ∧
    (⟨2024, 3, 1, 9, 30, 0, 0, some 0⟩ : PyDateTime).tz ≠ none := by
  decide

/-- C5 (amended): the resolver prefers `updated_at` over the created
fields; numeric values above `1e12` are divided by 1000 before
conversion, others taken as seconds; every `Z` in a textual value is
replaced by `+00:00`, and only when the result contains a dot is
everything from the first `+` and the first `.` onwards stripped (so the
value parses as naive); without a dot the explicit offset survives and
the parse is offset-aware; a candidate that fails to parse falls through
to the next field; when no candidate resolves the record is unresolved
(`none`), never defaulted to now. -/
theorem c5_resolver_behavior :
    (∀ (m : Meeting) (v : FieldVal), m.updated_at = some v → pyTruthy v = true →
      (parseTsVal v).isSome = true → get_updated_at m = parseTsVal v) ∧
    (∀ n : Int, 1000000000000 < n →
      parseTsVal (.num n) = fromtimestampUsec (n * 1000)) ∧
    (∀ n : Int, ¬ 1000000000000 < n →
      parseTsVal (.num n) = fromtimestampUsec (n * 1000000)) ∧
    (∀ s : String, (replaceZ s.data).any (fun c => c == '.') = true →
      parseTsVal (.str s) =
        fromisoChars (((replaceZ s.data).takeWhile (fun c => c != '+')).takeWhile
          (fun c => c != '.'))) ∧
    (∀ s : String, (replaceZ s.data).any (fun c => c == '.') = false →
      parseTsVal (.str s) = fromisoChars (replaceZ s.data)) ∧
    (∀ (m : Meeting) (v : FieldVal), m.updated_at = some v → pyTruthy v = true →
      parseTsVal v = none →
      get_updated_at m = get_updated_at {m with updated_at := none}) ∧
    (∀ m : Meeting, tryField m.updated_at = none → tryField m.created_at = none →
      tryField m.createdAt = none → get_updated_at m = none) := by
  refine ⟨?_, ?_, ?_, ?_, ?_, ?_, ?_⟩
  · intro m v h1 h2 h3
    obtain ⟨d, hd⟩ := Option.isSome_iff_exists.mp h3
    simp [get_updated_at, tryField, h1, h2, hd]
  · intro n h
    simp [parseTsVal, h]
  · intro n h
    simp [parseTsVal, h]
  · intro s h
    simp [parseTsVal, h]
  · intro s h
    simp [parseTsVal, h]
  · intro m v h1 h2 h3
    simp [get_updated_at, tryField, h1, h2, h3]
  · intro m h1 h2 h3
    simp [get_updated_at, h1, h2, h3]

/-- Witness for the amended C5 at concrete records and values. -/
theorem c5_resolver_witness :
    get_updated_at mPref = parseTsVal (.num 1700000000) ∧
    parseTsVal (.num 1700000000000123) = fromtimestampUsec (1700000000000123 * 1000) ∧
    parseTsVal (.num 1700000000) = fromtimestampUsec (1700000000 * 1000000) ∧
    parseTsVal (.str "2024-06-01T12:00:00.5Z") =
      fromisoChars (((replaceZ "2024-06-01T12:00:00.5Z".data).takeWhile
        (fun c => c != '+')).takeWhile (fun c => c != '.')) ∧
    parseTsVal (.str "2024-06-01T12:00:00") =
      fromisoChars (replaceZ "2024-06-01T12:00:00".data) ∧
    get_updated_at mFall = get_updated_at {mFall with updated_at := none} ∧
    get_updated_at mNone = none :=
  ⟨c5_resolver_behavior.1 mPref (.num 1700000000) rfl (by decide) (by decide),
   c5_resolver_behavior.2.1 1700000000000123 (by decide),
   c5_resolver_behavior.2.2.1 1700000000 (by decide),
   c5_resolver_behavior.2.2.2.1 "2024-06-01T12:00:00.5Z" (by decide),
   c5_resolver_behavior.2.2.2.2.1 "2024-06-01T12:00:00" (by decide),
   c5_resolver_behavior.2.2.2.2.2.1 mFall (.str "bogus") rfl (by decide) (by decide),
   c5_resolver_behavior.2.2.2.2.2.2 mNone (by decide) (by decide) (by decide)⟩

/-- C9: a candidate timestamp field holding the number 0 or the empty
string is falsy and skipped exactly as an absent field would be, so an
epoch-zero update time can never resolve from that field. -/
theorem c9_falsy_timestamp_skipped (m : Meeting) (v : FieldVal)
    (hv : v = .num 0 ∨ v = .str "") :
    (m.updated_at = some v →
      get_updated_at m = get_updated_at {m with updated_at := none}) ∧
    (m.created_at = some v →
      get_updated_at m = get_updated_at {m with created_at := none}) ∧
    (m.createdAt = some v →
      get_updated_at m = get_updated_at {m with createdAt := none}) := by
  have hf : pyTruthy v = false := by
    rcases hv with h | h <;> subst h <;> rfl
  refine ⟨?_, ?_, ?_⟩ <;> intro h <;> simp [get_updated_at, tryField, h, hf]

/-- Witness for C9 at concrete records. -/
theorem c9_falsy_witness :
    get_updated_at m9a = get_updated_at {m9a with updated_at := none} ∧
    get_updated_at m9b = get_updated_at {m9b with created_at := none} :=
  ⟨(c9_falsy_timestamp_skipped m9a (.num 0) (Or.inl rfl)).1 rfl,
   (c9_falsy_timestamp_skipped m9b (.str "") (Or.inr rfl)).2.1 rfl⟩

/-- C4: the content formatter is pure and total — it always returns the
fixed document shape — and emits the explicit placeholders
(`"Unknown"` for date and participants, `"No notes available"`,
`"No summary available"`, `"No transcript available"`) whenever the
corresponding optional field is absent or blank. -/
theorem c4_formatter_total_with_placeholders (m : Meeting) :
    format_inbox_file m = String.intercalate "\n" (format_lines m) ++ "\n" ∧
    (m.date = none → (format_lines m)[2]? = some "**Date**: Unknown") ∧
    (m.participants = [] →
      (format_lines m)[3]? = some "**Participants**: Unknown") ∧
    (pyStripS m.notes = "" → (format_lines m)[8]? = some "No notes available") ∧
    (pyStripS m.summary = "" →
      (format_lines m)[11]? = some "No summary available") ∧
    (m.transcript = none →
      (format_lines m)[14]? = some "No transcript available") ∧
    (∀ tr, m.transcript = some tr → pyStripS tr = "" →
      (format_lines m)[14]? = some "No transcript available") := by
  refine ⟨rfl, ?_, ?_, ?_, ?_, ?_, ?_⟩
  · intro h
    simp only [format_lines, dateStrOf, h]
    rfl
  · intro h
    simp only [format_lines, participantsStr, h]
    rfl
  · intro h
    simp only [format_lines, notesLine, h]
    rfl
  · intro h
    simp only [format_lines, summaryLine, h]
    rfl
  · intro h
    simp only [format_lines, transcriptLine, h]
    rfl
  · intro tr htr hs
    simp only [format_lines, transcriptLine, htr, hs]
    rfl

/-- Witness for C4 at concrete records. -/
theorem c4_formatter_witness :
    format_inbox_file m4 = String.intercalate "\n" (format_lines m4) ++ "\n" ∧
    (format_lines m4)[2]? = some "**Date**: Unknown" ∧
    (format_lines m4)[3]? = some "**Participants**: Unknown" ∧
    (format_lines m4)[8]? = some "No notes available" ∧
    (format_lines m4)[11]? = some "No summary available" ∧
    (format_lines m4)[14]? = some "No transcript available" ∧
    (format_lines m4b)[14]? = some "No transcript available" :=
  ⟨(c4_formatter_total_with_placeholders m4).1,
   (c4_formatter_total_with_placeholders m4).2.1 rfl,
   (c4_formatter_total_with_placeholders m4).2.2.1 rfl,
   (c4_formatter_total_with_placeholders m4).2.2.2.1 (by decide),
   (c4_formatter_total_with_placeholders m4).2.2.2.2.1 (by decide),
   (c4_formatter_total_with_placeholders m4).2.2.2.2.2.2 "\n" rfl (by decide),
   (c4_formatter_total_with_placeholders m4b).2.2.2.2.2.1 rfl⟩

/-- C8: a transcript of exactly `TRANSCRIPT_CAP` characters appears in
the document unmodified with no truncation marker; one of
`TRANSCRIPT_CAP + 1` or more characters is emitted as exactly its first
`TRANSCRIPT_CAP` characters followed by the truncation marker. -/
theorem c8_transcript_truncation_boundary (m : Meeting) (tr : String)
    (h : m.transcript = some tr) (hs : pyStripS tr ≠ "") :
    (tr.length = TRANSCRIPT_CAP → (format_lines m)[14]? = some tr) ∧
    (TRANSCRIPT_CAP < tr.length →
      (format_lines m)[14]? =
        some (tr.take TRANSCRIPT_CAP ++ "\n\n[... transcript truncated]")) := by
  constructor
  · intro hl
    simp only [format_lines, transcriptLine, h]
    rw [if_neg hs, if_neg (by omega : ¬ TRANSCRIPT_CAP < tr.length)]
    rfl
  · intro hl
    simp only [format_lines, transcriptLine, h]
    rw [if_neg hs, if_pos hl]
    rfl

theorem pyStripS_replicate_a (n : Nat) :
    pyStripS (String.mk (List.replicate n 'a')) = String.mk (List.replicate n 'a') := by
  unfold pyStripS
  rw [show (String.mk (List.replicate n 'a')).data = List.replicate n 'a' from rfl,
    pyStrip_eq_self]
  intro c hc
  rw [List.eq_of_mem_replicate hc]
  decide

theorem replicate_a_ne_empty (n : Nat) (h : 0 < n) :
    String.mk (List.replicate n 'a') ≠ "" := by
  intro he
  have hd : List.replicate n 'a' = ([] : List Char) := congrArg String.data he
  rw [List.replicate_eq_nil_iff] at hd
  omega

theorem length_replicate_a (n : Nat) : (String.mk (List.replicate n 'a')).length = n := by
  show (List.replicate n 'a').length = n
  exact List.length_replicate n 'a'

/-- Witness for C8 on both sides of the boundary. -/
theorem c8_truncation_witness :
    (format_lines m8a)[14]? = some t5000 ∧
    (format_lines m8b)[14]? =
      some (t5001.take TRANSCRIPT_CAP ++ "\n\n[... transcript truncated]") :=
  ⟨(c8_transcript_truncation_boundary m8a t5000 rfl
      (by rw [t5000, pyStripS_replicate_a]
          exact replicate_a_ne_empty _ (by decide))).1
     (by rw [t5000, length_replicate_a]),
   (c8_transcript_truncation_boundary m8b t5001 rfl
      (by rw [t5001, pyStripS_replicate_a]
          exact replicate_a_ne_empty _ (by decide))).2
     (by rw [t5001, length_replicate_a]; decide)⟩

theorem ingest_noCommits (cutoff : PyDateTime) (wErr : Nat → Bool) :
    ∀ (l : List Meeting) (seen : List String) (written w : Nat) (evs : List Event),
      ingest cutoff wErr l seen written = .ok (w, evs) → noCommits evs = true := by
  intro l
  induction l with
  | nil =>
    intro seen written w evs h
    simp only [ingest, Except.ok.injEq, Prod.mk.injEq] at h
    rw [← h.2]
    rfl
  | cons m rest ih =>
    intro seen written w evs h
    simp only [ingest] at h
    split at h
    · split at h
      · exact ih _ _ _ _ h
      · split at h
        · cases h
        · exact ih _ _ _ _ h
        · split at h
          · cases h
          · split at h
            · cases h
            · rename_i w2 evs2 heq
              simp only [Except.ok.injEq, Prod.mk.injEq] at h
              rw [← h.2]
              have hrec := ih _ _ _ _ heq
              simp only [noCommits, List.all_cons, Event.isCommit, Bool.not_false,
                Bool.true_and] at hrec ⊢
              exact hrec
    · exact ih _ _ _ _ h

/-- C2 (counterexample): an empty cache run started at `sampleNow` whose
commit step happens ten seconds later commits the commit-step time
`"2024-06-15T10:00:10"`, which differs from the rendering of the run's
own start time — the watermark is written with `datetime.now()` taken at
the commit line, not with the run's start time. -/
theorem c2_committed_instant_not_run_start :
    runEvents (_run (.ok []) none sampleNow sampleNow10 (fun _ => false)) =
      [.commit "2024-06-15T10:00:10"] ∧
    strftimeSecs sampleNow ≠ "2024-06-15T10:00:10" := by
  decide

/-- C2 (amended): on every run that loads the cache and finishes without
an uncaught exception, the watermark is committed exactly once, as the
last event after all document writes, and the committed instant is the
current time at the commit step (`now2`) — not the run's start time and
not any record's update time. -/
theorem c2_watermark_once_after_writes :
    ∀ (ms : List Meeting) (stateFile : Option String) (now1 now2 : PyDateTime)
      (wErr : Nat → Bool) (r : RunResult),
      _run (.ok ms) stateFile now1 now2 wErr = .ok r →
      r.events.getLast? = some (.commit (strftimeSecs now2)) ∧
      noCommits r.events.dropLast = true := by
  intro ms stateFile now1 now2 wErr r h
  simp only [_run] at h
  split at h
  · cases h
  · rename_i w evs heq
    injection h with h2
    subst h2
    constructor
    · simp [List.getLast?_concat]
    · rw [show (⟨0, evs ++ [Event.commit (strftimeSecs now2)]⟩ : RunResult).events =
          evs ++ [Event.commit (strftimeSecs now2)] from rfl, List.dropLast_concat]
      exact ingest_noCommits _ _ _ _ _ _ _ heq

/-- Witness for the amended C2 at a concrete run. -/
theorem c2_watermark_witness :
    c2res.events.getLast? = some (.commit (strftimeSecs sampleNow10)) ∧
    noCommits c2res.events.dropLast = true :=
  c2_watermark_once_after_writes [] none sampleNow sampleNow10 (fun _ => false) c2res rfl

/-- C3 (counterexample): when the first selected record's document write
fails, the `OSError` escapes the ingestion driver and the run records no
events at all — the second record is not processed and the watermark is
not committed, contradicting per-record isolation. -/
theorem c3_write_failure_not_isolated :
    runErr (_run (.ok [mA, mB]) (some "2020-01-01T00:00:00") sampleNow sampleNow
      (fun n => n == 0)) = some .osError ∧
    runEvents (_run (.ok [mA, mB]) (some "2020-01-01T00:00:00") sampleNow sampleNow
      (fun n => n == 0)) = [] := by
  decide

/-- C3 (amended): a selected record's write failure is not isolated: the
error propagates uncaught and the whole run aborts immediately with that
`OSError` — no further records are written, the watermark is never
committed, and the error escapes the ingestion driver (only the lock
release in `main` still happens). -/
theorem c3_write_failure_aborts_run (m : Meeting) (rest : List Meeting)
    (stateFile : Option String) (now1 now2 : PyDateTime) (wErr : Nat → Bool)
    (u : PyDateTime) (h1 : m.hasContent = true) (h2 : get_updated_at m = some u)
    (h3 : pyLt u (get_cutoff stateFile now1).1 = .ok false) (h4 : wErr 0 = true) :
    _run (.ok (m :: rest)) stateFile now1 now2 wErr = .error .osError := by
  simp only [_run, ingest, h1, h2, h3, h4, if_true]

/-- Witness for the amended C3: the concrete two-record run above. -/
theorem c3_write_failure_witness :
    _run (.ok [mA, mB]) (some "2020-01-01T00:00:00") sampleNow sampleNow
      (fun n => n == 0) = .error .osError :=
  c3_write_failure_aborts_run mA [mB] (some "2020-01-01T00:00:00") sampleNow sampleNow
    (fun n => n == 0) ⟨2023, 11, 14, 22, 13, 20, 0, none⟩ rfl (by decide) rfl rfl

theorem ingest_names (cutoff : PyDateTime) (wErr : Nat → Bool) :
    ∀ (l : List Meeting) (seen : List String) (written w : Nat) (evs : List Event),
      List.Pairwise namesApart l → (∀ m ∈ l, suffixedName m ∉ seen) →
      ingest cutoff wErr l seen written = .ok (w, evs) →
      (writeNames evs).Nodup ∧ ∀ n ∈ writeNames evs, n ∉ seen := by
  intro l
  induction l with
  | nil =>
    intro seen written w evs _ _ h
    simp only [ingest, Except.ok.injEq, Prod.mk.injEq] at h
    rw [← h.2]
    simp [writeNames]
  | cons m rest ih =>
    intro seen written w evs hp hs h
    rw [List.pairwise_cons] at hp
    have hs2 : ∀ k ∈ rest, suffixedName k ∉ seen :=
      fun k hk => hs k (List.mem_cons_of_mem m hk)
    simp only [ingest] at h
    split at h
    · split at h
      · exact ih _ _ _ _ hp.2 hs2 h
      · split at h
        · cases h
        · exact ih _ _ _ _ hp.2 hs2 h
        · split at h
          · cases h
          · split at h
            · cases h
            · rename_i w2 evs2 heq
              simp only [Except.ok.injEq, Prod.mk.injEq] at h
              have hseen : ∀ k ∈ rest, suffixedName k ∉ dedupName seen m :: seen := by
                intro k hk
                simp only [List.mem_cons, not_or]
                refine ⟨?_, hs2 k hk⟩
                unfold dedupName
                split
                · exact Ne.symm (hp.1 k hk).1
                · exact Ne.symm (hp.1 k hk).2.1
              have hrec := ih _ _ _ _ hp.2 hseen heq
              have hfresh : dedupName seen m ∉ seen := by
                unfold dedupName
                split
                · exact hs m (List.mem_cons_self m rest)
                · assumption
              rw [← h.2]
              have hwn : writeNames (Event.write (dedupName seen m)
                  (format_inbox_file m) :: evs2) =
                  dedupName seen m :: writeNames evs2 := by
                simp [writeNames]
              rw [hwn]
              constructor
              · rw [List.nodup_cons]
                refine ⟨?_, hrec.1⟩
                intro hmem
                have := hrec.2 _ hmem
                simp at this
              · intro n hn
                rcases List.mem_cons.mp hn with hn1 | hn2
                · rw [hn1]; exact hfresh
                · have := hrec.2 n hn2
                  simp only [List.mem_cons, not_or] at this
                  exact this.2
    · exact ih _ _ _ _ hp.2 hs2 h

/-- C6 (amended): within a run, a record whose generated name
`granola-{date}-{slug}.md` is unused gets the unsuffixed name, and one
whose generated name was already used gets the first 8 characters of its
identifier appended before the extension; the resulting written names are
pairwise distinct for every sequence of selected records whose suffixed
variants are pairwise distinct and whose generated names do not coincide
with another record's suffixed variant. (The suffixed name is not
re-checked against the used set, so without these conditions duplicates
are possible.) -/
theorem c6_filenames_unique_under_distinctness :
    (∀ (seen : List String) (m : Meeting), inbox_filename m ∉ seen →
      dedupName seen m = inbox_filename m) ∧
    (∀ (seen : List String) (m : Meeting), inbox_filename m ∈ seen →
      dedupName seen m = suffixedName m) ∧
    (∀ (ms : List Meeting) (stateFile : Option String) (now1 now2 : PyDateTime)
      (wErr : Nat → Bool) (r : RunResult),
      _run (.ok ms) stateFile now1 now2 wErr = .ok r →
      List.Pairwise namesApart ms → (writeNames r.events).Nodup) := by
  refine ⟨?_, ?_, ?_⟩
  · intro seen m h
    simp [dedupName, h]
  · intro seen m h
    simp [dedupName, h]
  · intro ms stateFile now1 now2 wErr r h hp
    simp only [_run] at h
    split at h
    · cases h
    · rename_i w evs heq
      injection h with h2
      subst h2
      have hwn : writeNames ((⟨0, evs ++ [Event.commit (strftimeSecs now2)]⟩ :
          RunResult).events) = writeNames evs := by
        simp [writeNames, List.filterMap_append]
      rw [hwn]
      exact (ingest_names _ _ ms [] 0 w evs hp (by simp) heq).1

/-- C6 (counterexample): three selected records sharing date, title slug
and the first 8 identifier characters produce a duplicated file name —
the second and third both get `granola-undated-planning-aaaa1111.md`, so
within-run uniqueness fails for this multiset of selected records. -/
theorem c6_duplicate_names_possible :
    writeNames (runEvents (_run (.ok [mD1, mD2, mD3]) (some "2020-01-01T00:00:00")
      sampleNow sampleNow (fun _ => false))) =
      ["granola-undated-planning.md", "granola-undated-planning-aaaa1111.md",
       "granola-undated-planning-aaaa1111.md"] ∧
    ¬ (writeNames (runEvents (_run (.ok [mD1, mD2, mD3]) (some "2020-01-01T00:00:00")
      sampleNow sampleNow (fun _ => false)))).Nodup := by
  constructor
  · decide
  · decide

/-- Witness for the amended C6 at concrete records. -/
theorem c6_filenames_witness :
    dedupName [] mD1 = inbox_filename mD1 ∧
    dedupName ["granola-undated-planning.md"] mD2 = suffixedName mD2 ∧
    (writeNames c6res.events).Nodup :=
  ⟨c6_filenames_unique_under_distinctness.1 [] mD1 (by decide),
   c6_filenames_unique_under_distinctness.2.1 ["granola-undated-planning.md"] mD2
     (by decide),
   c6_filenames_unique_under_distinctness.2.2 [w61, w62] (some "2020-01-01T00:00:00")
     sampleNow sampleNow (fun _ => false) c6res rfl (by decide)⟩
